import Mathlib

/-!
Shallow embedding of the core of `vendor_web_scraper` (a Python package) and
proofs about it.

Conventions used throughout:
* Python `Decimal` values are modelled as exact rationals (`ℚ`); `Decimal`
  arithmetic in the embedded code is exact rational arithmetic followed by an
  explicit `quantize` (round-half-even) step exactly where the source calls
  `Decimal.quantize`.
* A Python dict appearing as a record is a structure of `Option` fields
  (`none` = key absent / value `None` as noted per field); a dict used as a
  map is an association list in insertion order, as Python dicts preserve
  insertion order.
* Fallible Python code is embedded as `Except PyError α`; an uncaught Python
  exception is an `Except.error`.
-/

/-- Python exceptions that the embedded fragment of
`vendor_web_scraper/core/product_model.py` can let escape. -/
inductive PyError where
  | nameError        -- NameError (an unbound name evaluated at runtime)
  | validationError  -- pydantic ValidationError
  | attributeError   -- AttributeError
deriving DecidableEq

/-- Round a rational to an integer, ties to even: the `ROUND_HALF_EVEN`
rounding that `decimal`'s default context applies in `Decimal.quantize`.
Computed from the numerator and denominator with floor division so that the
kernel can evaluate it on concrete inputs. -/
def roundHalfEven (x : ℚ) : ℤ :=
  let n : ℤ := x.num.fdiv (x.den : ℤ)      -- floor of x
  let r : ℤ := x.num - n * (x.den : ℤ)     -- x - n = r / x.den with 0 ≤ r < x.den
  if 2 * r < (x.den : ℤ) then n
  else if (x.den : ℤ) < 2 * r then n + 1
  else if n % 2 = 0 then n else n + 1

/-- `x.quantize(Decimal("0.0001"))` (for `d = 4`) / `x.quantize(Decimal("0.01"))`
(for `d = 2`): round `x` to `d` decimal places, half to even. -/
def quantize (d : ℕ) (x : ℚ) : ℚ :=
  (roundHalfEven (x * 10 ^ d) : ℚ) / 10 ^ d

/-- A raw (pre-validation) monetary value as it can appear in the input dict of
`ProductPricing`. `num q` stands for any value `v` (int, float, `Decimal` or
numeric string) for which Python `Decimal(str(v))` succeeds and denotes the
rational `q`; `badStr s` stands for a string `s` that `Decimal` cannot parse
(`Decimal(str(s))` raises `decimal.InvalidOperation`). -/
inductive RawVal where
  | num (q : ℚ)
  | badStr (s : String)
deriving DecidableEq

/-- `Decimal(str(v))`: `some` of the denoted rational, or `none` when the call
raises `decimal.InvalidOperation`. -/
def parseDecimal : RawVal → Option ℚ
  | .num q => some q
  | .badStr _ => none

/-- A raw key of the `quantity_breaks` input dict. `int z` is a Python int,
`intStr z` a string that `int(...)` parses to `z` (e.g. `"10"`, `"-5"`),
`bad s` a string on which `int(s)` raises `ValueError` (e.g. `"abc"`). -/
inductive QBKey where
  | int (z : ℤ)
  | intStr (z : ℤ)
  | bad (s : String)
deriving DecidableEq

/-- `int(k) if not isinstance(k, int) else k`: `some` of the parsed integer, or
`none` when `int(k)` raises `ValueError`. -/
def QBKey.toInt? : QBKey → Option ℤ
  | .int z => some z
  | .intStr z => some z
  | .bad _ => none

/-- The raw keyword dict passed to `ProductPricing(...)` in
`core/product_model.py`. An outer `none` means the key is absent.
`package_quantity` is `some none` when the key is present with value `None`
and `some (some q)` when present with an int (the pydantic field is
`Optional[int]`); monetary fields hold `RawVal`s, `quantity_breaks` holds the
raw entry list in insertion order (`Option RawVal` values: `none` is Python
`None`). -/
structure PricingInput where
  currency : String
  package_price : Option RawVal := none
  package_price_inc_tax : Option RawVal := none
  package_quantity : Option (Option ℤ) := none
  package_unit : Option String := none
  unit_price : Option RawVal := none
  unit_price_inc_tax : Option RawVal := none
  minimum_order_quantity : Option ℤ := none
  order_multiple : Option ℤ := none
  quantity_breaks : Option (List (QBKey × Option RawVal)) := none
deriving DecidableEq

/-- First block of `ProductPricing.calculate_derived_fields`: auto-calculate
`unit_price` when absent. The guard is Python's
`package_price is not None and package_quantity and package_quantity > 0`;
for an int, truthiness plus `> 0` is exactly `0 < q`. The module imports only
`Decimal` from `decimal`, so when `Decimal(str(package_price))` raises
`InvalidOperation`, evaluating the handler clause
`except (ValueError, TypeError, InvalidOperation)` raises `NameError`, which
escapes instead of the intended silent `pass`. -/
def derive_unit_price (values : PricingInput) : Except PyError PricingInput :=
  match values.unit_price with
  | some _ => .ok values
  | none =>
    match values.package_price with
    | none => .ok values
    | some pp =>
      match values.package_quantity.getD (some 1) with
      | none => .ok values
      | some q =>
        if 0 < q then
          match parseDecimal pp with
          | some price =>
              .ok { values with unit_price := some (.num (quantize 4 (price / (q : ℚ)))) }
          | none => .error .nameError
        else .ok values

/-- Second block of `ProductPricing.calculate_derived_fields`: auto-calculate
`unit_price_inc_tax` when absent and `unit_price` is present, assuming the
fixed 10% GST (`Decimal("1.1") = 11/10`). Same unbound-`InvalidOperation`
behaviour as in `derive_unit_price`. -/
def derive_unit_price_inc_tax (values : PricingInput) : Except PyError PricingInput :=
  match values.unit_price_inc_tax with
  | some _ => .ok values
  | none =>
    match values.unit_price with
    | none => .ok values
    | some up =>
      match parseDecimal up with
      | some u =>
          .ok { values with unit_price_inc_tax := some (.num (quantize 2 (u * (11 / 10 : ℚ)))) }
      | none => .error .nameError

/-- `ProductPricing.calculate_derived_fields`, the `mode="before"` model
validator: the two derivation blocks in source order. -/
def calculate_derived_fields (values : PricingInput) : Except PyError PricingInput :=
  match derive_unit_price values with
  | .error e => .error e
  | .ok v1 => derive_unit_price_inc_tax v1

/-- `ProductPricing.validate_decimal_fields`, the `mode="before"` field
validator for the four monetary fields. The intended
`raise ValueError(f"Invalid decimal value: {v}")` is unreachable: when
`Decimal(str(v))` raises, evaluating the handler clause
`except (ValueError, TypeError, InvalidOperation)` raises `NameError`
(`InvalidOperation` is never imported), and pydantic propagates any
non-`ValueError` exception from a validator unchanged. -/
def validate_decimal_fields : Option RawVal → Except PyError (Option ℚ)
  | none => .ok none
  | some v =>
    match parseDecimal v with
    | some q => .ok (some q)
    | none => .error .nameError

/-- Assignment `m[k] = v` on a Python dict modelled as an association list in
insertion order: an existing key keeps its position, a new key is appended. -/
def dictInsert {κ α : Type} [BEq κ] (m : List (κ × α)) (k : κ) (v : α) : List (κ × α) :=
  if m.any (fun p => p.1 == k) then m.map (fun p => if p.1 == k then (k, v) else p)
  else m ++ [(k, v)]

/-- Loop body of `ProductPricing.validate_quantity_breaks` over the raw
entries, accumulating `validated_breaks`. A key on which `int(k)` raises, or a
value on which `Decimal(str(val))` raises, triggers the same
unbound-`InvalidOperation` `NameError` as above instead of the intended
`continue`; a `None` value or a non-positive quantity skips the entry. -/
def validate_quantity_breaks_go :
    List (QBKey × Option RawVal) → List (ℤ × ℚ) → Except PyError (List (ℤ × ℚ))
  | [], acc => .ok acc
  | (k, val) :: rest, acc =>
    match k.toInt? with
    | none => .error .nameError
    | some quantity =>
      match val with
      | none => validate_quantity_breaks_go rest acc
      | some rv =>
        match parseDecimal rv with
        | none => .error .nameError
        | some price =>
          if 0 < quantity then validate_quantity_breaks_go rest (dictInsert acc quantity price)
          else validate_quantity_breaks_go rest acc

/-- `ProductPricing.validate_quantity_breaks`, the `mode="before"` field
validator for `quantity_breaks`. An absent key means pydantic supplies the
(unvalidated) `default_factory` value `{}`. -/
def validate_quantity_breaks (raw : Option (List (QBKey × Option RawVal))) :
    Except PyError (List (ℤ × ℚ)) :=
  match raw with
  | none => .ok []
  | some entries => validate_quantity_breaks_go entries []

/-- The validated `ProductPricing` pydantic model of `core/product_model.py`. -/
structure ProductPricing where
  currency : String
  package_price : Option ℚ := none
  package_price_inc_tax : Option ℚ := none
  package_quantity : Option ℤ := some 1
  package_unit : Option String := none
  unit_price : Option ℚ := none
  unit_price_inc_tax : Option ℚ := none
  minimum_order_quantity : Option ℤ := none
  order_multiple : Option ℤ := none
  quantity_breaks : List (ℤ × ℚ) := []
deriving DecidableEq

/-- Construction `ProductPricing(**input)`: pydantic first runs the
`mode="before"` model validator `calculate_derived_fields`, then the field
validators in field-definition order. pydantic collects `ValueError`s from
field validators into one `ValidationError` but propagates any other exception
immediately; the validators modelled here only ever raise `NameError`
(propagated immediately), so the sequential chain below is faithful for these
inputs. -/
def ProductPricing.construct (inp : PricingInput) : Except PyError ProductPricing := do
  let v ← calculate_derived_fields inp
  let pp ← validate_decimal_fields v.package_price
  let ppt ← validate_decimal_fields v.package_price_inc_tax
  let up ← validate_decimal_fields v.unit_price
  let upt ← validate_decimal_fields v.unit_price_inc_tax
  let qb ← validate_quantity_breaks v.quantity_breaks
  pure { currency := v.currency
         package_price := pp
         package_price_inc_tax := ppt
         package_quantity := v.package_quantity.getD (some 1)
         package_unit := v.package_unit
         unit_price := up
         unit_price_inc_tax := upt
         minimum_order_quantity := v.minimum_order_quantity
         order_multiple := v.order_multiple
         quantity_breaks := qb }

/-- A Python value as it appears in the dicts produced by the two projection
methods of `ProductInfo`. Ints and floats are modelled as exact rationals
(`float(Decimal)` loses no information on the magnitudes at stake here and the
claims only distinguish `None` from numbers). -/
inductive PyValue where
  | none
  | str (s : String)
  | num (q : ℚ)
  | bool (b : Bool)
  | qbreaks (m : List (ℤ × ℚ))
deriving DecidableEq

/-- Python truthiness of the embedded values: `None`, `""`, `0` and `{}` are
falsy. -/
def pyTruthy : PyValue → Bool
  | .none => false
  | .str s => s ≠ ""
  | .num q => q ≠ 0
  | .bool b => b
  | .qbreaks m => m ≠ []

/-- Python `a or b` on embedded values. -/
def pyOr (a b : PyValue) : PyValue := if pyTruthy a then a else b

/-- Python `a or b` where `a` is an optional string (`None` and `""` are
falsy) and `b` a string. -/
def pyStrOr (a : Option String) (b : String) : String :=
  match a with
  | some s => if s ≠ "" then s else b
  | none => b

/-- An optional string attribute as a dict value. -/
def optStr : Option String → PyValue
  | some s => .str s
  | none => .none

/-- An optional numeric attribute as a dict value. -/
def optNum : Option ℚ → PyValue
  | some q => .num q
  | none => .none

/-- An optional int attribute as a dict value. -/
def optInt : Option ℤ → PyValue
  | some z => .num (z : ℚ)
  | none => .none

/-- An optional bool attribute as a dict value. -/
def optBool : Option Bool → PyValue
  | some b => .bool b
  | none => .none

/-- The `ProductSpecifications` pydantic model (URLs kept as strings;
`technical_specs` entries are opaque values). -/
structure ProductSpecifications where
  manufacturer : Option String := none
  manufacturer_part_number : Option String := none
  category : Option String := none
  subcategory : Option String := none
  description : Option String := none
  detailed_description : Option String := none
  technical_specs : List (String × PyValue) := []
  datasheet_url : Option String := none
  compliance_certifications : List String := []
deriving DecidableEq

/-- The `ProductAvailability` pydantic model. -/
structure ProductAvailability where
  in_stock : Option Bool := none
  stock_quantity : Option ℤ := none
  lead_time_days : Option ℤ := none
  lead_time_description : Option String := none
  discontinued : Bool := false
  lifecycle_status : Option String := none
deriving DecidableEq

/-- The `ProductMedia` pydantic model (URLs kept as strings). -/
structure ProductMedia where
  primary_image_url : Option String := none
  additional_images : List String := []
  video_urls : List String := []
deriving DecidableEq

/-- The `ProductInfo` pydantic model. `scraped_at` is the `datetime` carried by
the record, modelled by its `isoformat()` string (the projections only ever
call `isoformat()` on it). -/
structure ProductInfo where
  vendor_name : String
  vendor_part_number : String
  product_url : String
  title : String
  specifications : ProductSpecifications := {}
  pricing : ProductPricing
  availability : ProductAvailability := {}
  media : ProductMedia := {}
  vendor_specific_data : List (String × PyValue) := []
  scraped_at : String := "2024-01-01T00:00:00"
  scraper_version : Option String := none
deriving DecidableEq

/-- Python attribute access `self.pricing.<name>` on the `ProductPricing`
pydantic model: each defined field resolves to its value; any other name
raises `AttributeError` (the model declares no `extra="allow"`, so unknown
attributes are not present on instances). -/
def ProductPricing.getattr (p : ProductPricing) : String → Except PyError PyValue
  | "currency" => .ok (.str p.currency)
  | "package_price" => .ok (optNum p.package_price)
  | "package_price_inc_tax" => .ok (optNum p.package_price_inc_tax)
  | "package_quantity" => .ok (optInt p.package_quantity)
  | "package_unit" => .ok (optStr p.package_unit)
  | "unit_price" => .ok (optNum p.unit_price)
  | "unit_price_inc_tax" => .ok (optNum p.unit_price_inc_tax)
  | "minimum_order_quantity" => .ok (optInt p.minimum_order_quantity)
  | "order_multiple" => .ok (optInt p.order_multiple)
  | "quantity_breaks" => .ok (.qbreaks p.quantity_breaks)
  | _ => .error .attributeError

/-- `ProductInfo.to_inventree_format`. The dict-literal entries are written in
source order; the only non-pure step is the value of the `"units"` entry,
which reads `self.pricing.packaging`. Hoisting that read above the literal is
behaviour-preserving because every other entry is a pure attribute
projection. -/
def ProductInfo.to_inventree_format (p : ProductInfo) :
    Except PyError (List (String × PyValue)) := do
  let notes : String :=
    match p.specifications.detailed_description with
    | some d =>
        if d ≠ "" then d ++ "\n\nScraped from " ++ p.vendor_name ++ " on " ++ p.scraped_at
        else "Scraped from " ++ p.vendor_name ++ " on " ++ p.scraped_at
    | none => "Scraped from " ++ p.vendor_name ++ " on " ++ p.scraped_at
  let packaging ← p.pricing.getattr "packaging"
  pure
    [("name", .str p.title),
     ("description", .str (pyStrOr p.specifications.description p.title)),
     ("IPN", .str (pyStrOr p.specifications.manufacturer_part_number p.vendor_part_number)),
     ("category_name", optStr p.specifications.category),
     ("link", .str p.product_url),
     ("remote_image",
       match p.media.primary_image_url with
       | some u => .str u
       | none => .none),
     ("notes", .str notes),
     ("default_supplier", .str p.vendor_name),
     ("base_cost",
       match p.pricing.unit_price with
       | some q => if q ≠ 0 then .num q else .none
       | none => .none),
     ("units", pyOr packaging .none),
     ("in_stock", optBool p.availability.in_stock),
     ("minimum_stock", pyOr (optInt p.pricing.minimum_order_quantity) (.num 1)),
     ("stock", pyOr (optInt p.availability.stock_quantity) (.num 0)),
     ("purchaseable", .bool true),
     ("active", .bool (!p.availability.discontinued)),
     ("component", .bool true),
     ("trackable", .bool false),
     ("keywords", .str (p.vendor_name ++ "," ++ pyStrOr p.specifications.manufacturer "")),
     ("creation_date", .str p.scraped_at)]

/-- `ProductInfo.to_excel_row`, entries in source order. The `"Unit Price"`
entry is `float(self.pricing.unit_price) if self.pricing.unit_price else
None`: a truthiness guard, so both `None` and `Decimal("0")` project to
`None`. -/
def ProductInfo.to_excel_row (p : ProductInfo) : List (String × PyValue) :=
  [("Vendor", .str p.vendor_name),
   ("Vendor Part Number", .str p.vendor_part_number),
   ("Product Title", .str p.title),
   ("Manufacturer", optStr p.specifications.manufacturer),
   ("Manufacturer Part Number", optStr p.specifications.manufacturer_part_number),
   ("Category", optStr p.specifications.category),
   ("Description", optStr p.specifications.description),
   ("Unit Price",
     match p.pricing.unit_price with
     | some q => if q ≠ 0 then .num q else .none
     | none => .none),
   ("Currency", .str p.pricing.currency),
   ("MOQ", optInt p.pricing.minimum_order_quantity),
   ("In Stock", optBool p.availability.in_stock),
   ("Stock Quantity", optInt p.availability.stock_quantity),
   ("Lead Time (Days)", optInt p.availability.lead_time_days),
   ("Product URL", .str p.product_url),
   ("Image URL",
     match p.media.primary_image_url with
     | some u => .str u
     | none => .none),
   ("Scraped At", .str p.scraped_at)]

/-- The `ScrapingResult` dataclass of `core/scraper_base.py`. -/
structure ScrapingResult where
  success : Bool
  product_info : Option ProductInfo := none
  error_message : Option String := none
  response_time_ms : Option ℚ := none
  http_status_code : Option ℤ := none
deriving DecidableEq

/-- `ScrapingResult(...)` construction: dataclass field assignment followed by
`__post_init__`, which raises `ValueError` when `success` is set without
`product_info` and fills in a default `error_message` for unsuccessful results
without one. -/
def mkScrapingResult (success : Bool) (product_info : Option ProductInfo)
    (error_message : Option String) (response_time_ms : Option ℚ)
    (http_status_code : Option ℤ) : Except String ScrapingResult :=
  if success = true ∧ product_info = none then
    .error "Successful scraping result must include product_info"
  else
    .ok { success := success
          product_info := product_info
          error_message :=
            if success = false ∧ error_message = none then some "Unknown error occurred"
            else error_message
          response_time_ms := response_time_ms
          http_status_code := http_status_code }

/-- ASCII lower-casing of one character, as `str.lower()` acts on the ASCII
vendor names and domain strings the factory handles. -/
def charLower (c : Char) : Char :=
  if 'A' ≤ c ∧ c ≤ 'Z' then Char.ofNat (c.toNat + 32) else c

/-- `s.lower()` on ASCII strings. -/
def strLower (s : String) : String := String.mk (s.data.map charLower)

/-- `a.endswith(b)`. -/
def pyEndsWith (a b : String) : Bool := b.data.isSuffixOf a.data

/-- `a.startswith(b)`. -/
def pyStartsWith (a b : String) : Bool := b.data.isPrefixOf a.data

/-- `s[n:]`. -/
def strDropN (s : String) (n : ℕ) : String := String.mk (s.data.drop n)

/-- The characters after the first occurrence of `pat` in the list, or `none`
when `pat` does not occur. -/
def afterSubstring (pat : List Char) : List Char → Option (List Char)
  | [] => none
  | c :: rest =>
    if pat.isPrefixOf (c :: rest) then some ((c :: rest).drop pat.length)
    else afterSubstring pat rest

/-- `urllib.parse.urlparse(url).netloc` for the URLs the factory receives: the
authority part between `"://"` and the first `'/'`, `'?'` or `'#'`; empty when
the URL has no `"//"` authority marker. -/
def urlNetloc (url : String) : String :=
  match afterSubstring "://".data url.data with
  | some rest => String.mk (rest.takeWhile fun c => !(c == '/') && !(c == '?') && !(c == '#'))
  | none => ""

/-- The `ScraperFactory` state of `core/scraper_factory.py`: `scrapers` maps a
lower-cased vendor name to the outcome of calling the registered scraper class
(`Except.ok inst` models a constructor returning the instance named `inst`,
`Except.error ()` a constructor that raises); `domain_mapping` maps lower-cased
domains to lower-cased vendor names. Both dicts are association lists in
registration (insertion) order. -/
structure ScraperFactory where
  scrapers : List (String × Except Unit String) := []
  domain_mapping : List (String × String) := []

/-- `ScraperFactory.register_scraper`: store the constructor under the
lower-cased vendor name and map each lower-cased domain to it. -/
def ScraperFactory.register_scraper (f : ScraperFactory) (vendor_name : String)
    (ctor : Except Unit String) (domains : List String) : ScraperFactory :=
  { scrapers := dictInsert f.scrapers (strLower vendor_name) ctor
    domain_mapping :=
      domains.foldl (fun m d => dictInsert m (strLower d) (strLower vendor_name))
        f.domain_mapping }

/-- `ScraperFactory.get_scraper_by_vendor`: `None` for an unregistered vendor;
otherwise call the constructor, catching any exception and returning `None`
(`try ... except Exception: return None`). -/
def ScraperFactory.get_scraper_by_vendor (f : ScraperFactory) (vendor_name : String) :
    Option String :=
  match List.lookup (strLower vendor_name) f.scrapers with
  | none => none
  | some (.ok inst) => some inst
  | some (.error _) => none

/-- The lower-cased, `www.`-stripped domain that `get_scraper_by_url` computes
from the URL. -/
def normalizedDomain (url : String) : String :=
  let domain := strLower (urlNetloc url)
  if pyStartsWith domain "www." then strDropN domain 4 else domain

/-- The domain-matching part of `ScraperFactory.get_scraper_by_url`: first an
exact lookup in `_domain_mapping`, else a scan in registration order returning
the first entry where either string is a suffix of the other
(`domain.endswith(registered_domain) or registered_domain.endswith(domain)`);
the loop returns on the first hit. -/
def findVendorForDomain (mapping : List (String × String)) (domain : String) :
    Option String :=
  match List.lookup domain mapping with
  | some vendor => some vendor
  | none =>
    match mapping.find? (fun p => pyEndsWith domain p.1 || pyEndsWith p.1 domain) with
    | some p => some p.2
    | none => none

/-- `ScraperFactory.get_scraper_by_url`: normalize the domain, resolve it to a
vendor, and delegate to `get_scraper_by_vendor`; no match yields `None`. The
whole body is additionally wrapped in `try ... except Exception: return None`,
so the function never raises; the embedding is total, so that wrapper has no
observable effect here. -/
def ScraperFactory.get_scraper_by_url (f : ScraperFactory) (url : String) : Option String :=
  match findVendorForDomain f.domain_mapping (normalizedDomain url) with
  | some vendor => f.get_scraper_by_vendor vendor
  | none => none

/-- State of the persisted cookie file as `_load_cookies_from_file` can find
it: missing, unreadable (`json.JSONDecodeError`/`KeyError`/`TypeError`, all
caught and treated as a failed load), or a stored `{expires_at, cookies}`
payload. -/
inductive CookieFileState where
  | absent
  | corrupt
  | stored (expires_at : ℚ) (cookies : List (String × String))
deriving DecidableEq

/-- The environment a `CookieManager` call observes: the cookie file, the
current `time.time()`, whether selenium imported (`SELENIUM_AVAILABLE`), and
what `_harvest_fresh_cookies` would produce (`some cs` = harvest succeeds and
returns cookies `cs`; `none` = harvest fails). -/
structure CookieEnv where
  fileState : CookieFileState
  now : ℚ
  selenium_available : Bool
  harvest_result : Option (List (String × String))

/-- `CookieManager._load_cookies_from_file`: `some cookies` when the file
exists, parses, and `time.time() > expires_at` does not hold; `none`
otherwise. -/
def load_cookies_from_file (env : CookieEnv) : Option (List (String × String)) :=
  match env.fileState with
  | .absent => none
  | .corrupt => none
  | .stored expires_at cookies => if env.now > expires_at then none else some cookies

/-- `CookieManager.get_valid_cookies`: cached file first, then (when
`auto_refresh` and selenium are available) harvesting, then the
`fallback_cookies` argument (a truthiness test: an absent or empty fallback
falls through), and finally the empty dict. -/
def get_valid_cookies (env : CookieEnv) (auto_refresh : Bool)
    (fallback_cookies : Option (List (String × String))) : List (String × String) :=
  match load_cookies_from_file env with
  | some cookies => cookies
  | none =>
    let harvested : Option (List (String × String)) :=
      if auto_refresh && env.selenium_available then env.harvest_result else none
    match harvested with
    | some cookies => cookies
    | none =>
      match fallback_cookies with
      | some cookies => if cookies ≠ [] then cookies else []
      | none => []

/-- One attempt of the request loop in `BaseScraper._make_request`:
`session.get` either returns a response with the given status code or raises a
`requests.RequestException` (any transport error). -/
inductive Attempt where
  | response (status : ℕ)
  | exception
deriving DecidableEq

/-- The outcome of one loop iteration up to `raise_for_status`: a transport
error, or an HTTP error status (`raise_for_status` raises `HTTPError`, a
`RequestException`, exactly for `400 ≤ status < 600`), both land in the
`except` branch; any other response is returned. -/
def attemptOutcome : Attempt → Except Unit ℕ
  | .exception => .error ()
  | .response s => if 400 ≤ s ∧ s < 600 then .error () else .ok s

/-- The retry loop of `BaseScraper._make_request` from iteration `attempt`
onwards, returning the result together with the total back-off sleep
(`2 ** attempt * delay_between_requests` before each retry). The source guard
is `attempt == max_retries`; since the loop runs `attempt` through
`range(max_retries + 1)`, the `max_retries ≤ attempt` form below coincides
with it on every reachable iteration and makes termination manifest. -/
def requestLoop (maxRetries : ℕ) (delay : ℚ) (attempts : ℕ → Attempt) (attempt : ℕ) :
    Except Unit ℕ × ℚ :=
  match attemptOutcome (attempts attempt) with
  | .ok s => (.ok s, 0)
  | .error _ =>
    if h : maxRetries ≤ attempt then (.error (), 0)
    else
      let rest := requestLoop maxRetries delay attempts (attempt + 1)
      (rest.1, 2 ^ attempt * delay + rest.2)
termination_by maxRetries - attempt
decreasing_by omega

/-- `BaseScraper._make_request` (after rate limiting and URL normalization):
run the retry loop from attempt 0. The first component is the returned
response status (or the propagated last error), the second the total back-off
sleep in seconds. -/
def make_request (maxRetries : ℕ) (delay : ℚ) (attempts : ℕ → Attempt) :
    Except Unit ℕ × ℚ :=
  requestLoop maxRetries delay attempts 0

/-- Concrete pricing input for exercising the derivation: package price 10,
package quantity 4, no unit price supplied. -/
def c1_witness_input : PricingInput :=
  { currency := "AUD", package_price := some (.num 10), package_quantity := some (some 4) }

/-- Concrete pricing input with an unparseable monetary value:
`ProductPricing(currency="USD", unit_price="abc")`. -/
def c2_input : PricingInput := { currency := "USD", unit_price := some (.badStr "abc") }

/-- The raw `quantity_breaks` input `{"10": "1.50", "abc": "2.00", "-5": "3.00"}`
named by the specification. -/
def c4_breaks : List (QBKey × Option RawVal) :=
  [(.intStr 10, some (.num (mkRat 3 2))),
   (.bad "abc", some (.num 2)),
   (.intStr (-5), some (.num 3))]

/-- Pricing input carrying `c4_breaks` as its `quantity_breaks`. -/
def c4_input : PricingInput := { currency := "AUD", quantity_breaks := some c4_breaks }

/-- A factory with vendor "acme" registered for domain "acme.com" whose
constructor raises. -/
def c6_factory : ScraperFactory :=
  ScraperFactory.register_scraper {} "acme" (.error ()) ["acme.com"]

/-- A factory with vendor "acme" registered for domain "acme.com" whose
constructor succeeds and returns the instance "AcmeScraper". -/
def c7_factory : ScraperFactory :=
  ScraperFactory.register_scraper {} "acme" (.ok "AcmeScraper") ["acme.com"]

/-- A cookie environment whose persisted file has `expires_at = 5` in the past
of `now = 10`, with selenium importable and a harvest that would succeed. -/
def c8_env : CookieEnv :=
  { fileState := .stored 5 [("sess", "old")], now := 10, selenium_available := true,
    harvest_result := some [("sess", "fresh")] }

/-- A product record whose `unit_price` is the valid zero price. -/
def c10_product : ProductInfo :=
  { vendor_name := "Test Vendor", vendor_part_number := "TV1",
    product_url := "https://example.com/p/1", title := "Test Product",
    pricing := { currency := "AUD", unit_price := some 0 } }

/-- Auxiliary: an association-list lookup misses when no key equals the
probe. -/
theorem lookup_eq_none_of_all_ne {β : Type} (d : String) (m : List (String × β))
    (h : ∀ p ∈ m, p.1 ≠ d) : List.lookup d m = none := by
  induction m with
  | nil => rfl
  | cons hd tl ih =>
    obtain ⟨k, v⟩ := hd
    have hne : k ≠ d := h (k, v) (List.mem_cons_self _ _)
    have hbeq : (d == k) = false := by
      simp only [beq_eq_false_iff_ne, ne_eq]
      exact fun e => hne e.symm
    simp only [List.lookup, hbeq]
    exact ih fun p hp => h p (List.mem_cons_of_mem _ hp)

/-- Auxiliary: when every attempt from `attempt` through `maxRetries` fails,
the retry loop propagates the error after sleeping `2 ^ i * delay` before each
retry. -/
theorem requestLoop_all_fail (maxRetries : ℕ) (delay : ℚ) (attempts : ℕ → Attempt) :
    ∀ (n attempt : ℕ), maxRetries - attempt = n → attempt ≤ maxRetries →
      (∀ i, attempt ≤ i → i ≤ maxRetries → attemptOutcome (attempts i) = .error ()) →
      requestLoop maxRetries delay attempts attempt =
        (.error (), (Finset.Ico attempt maxRetries).sum fun i => (2 : ℚ) ^ i * delay) := by
  intro n
  induction n with
  | zero =>
    intro attempt hsub hle hfail
    have heq : attempt = maxRetries := by omega
    rw [requestLoop]
    rw [hfail attempt le_rfl hle]
    simp [heq]
  | succ n ih =>
    intro attempt hsub hle hfail
    have hlt : attempt < maxRetries := by omega
    rw [requestLoop]
    rw [hfail attempt le_rfl hle]
    rw [ih (attempt + 1) (by omega) (by omega) (fun i h1 h2 => hfail i (by omega) h2)]
    simp only [dif_neg (by omega : ¬ maxRetries ≤ attempt)]
    rw [Finset.sum_eq_sum_Ico_succ_bot hlt]

/-- Auxiliary: when the attempts before `k` fail and attempt `k` yields a
non-error response, the retry loop returns it with the accumulated back-off
sleep. -/
theorem requestLoop_success (maxRetries : ℕ) (delay : ℚ) (attempts : ℕ → Attempt) (s : ℕ) :
    ∀ (n attempt k : ℕ), k - attempt = n → attempt ≤ k → k ≤ maxRetries →
      (∀ i, attempt ≤ i → i < k → attemptOutcome (attempts i) = .error ()) →
      attemptOutcome (attempts k) = .ok s →
      requestLoop maxRetries delay attempts attempt =
        (.ok s, (Finset.Ico attempt k).sum fun i => (2 : ℚ) ^ i * delay) := by
  intro n
  induction n with
  | zero =>
    intro attempt k hsub hak hk hfail hok
    have heq : attempt = k := by omega
    subst heq
    rw [requestLoop]
    rw [hok]
    simp
  | succ n ih =>
    intro attempt k hsub hak hk hfail hok
    have hlt : attempt < k := by omega
    rw [requestLoop]
    rw [hfail attempt le_rfl hlt]
    rw [ih (attempt + 1) k (by omega) (by omega) hk (fun i h1 h2 => hfail i (by omega) h2) hok]
    simp only [dif_neg (by omega : ¬ maxRetries ≤ attempt)]
    rw [Finset.sum_eq_sum_Ico_succ_bot hlt]

/-- Auxiliary: the retry loop only ends in an error when every attempt in range
failed. -/
theorem requestLoop_error_all_fail (maxRetries : ℕ) (delay : ℚ) (attempts : ℕ → Attempt) :
    ∀ (n attempt : ℕ), maxRetries - attempt = n → attempt ≤ maxRetries →
      (requestLoop maxRetries delay attempts attempt).1 = .error () →
      ∀ i, attempt ≤ i → i ≤ maxRetries → attemptOutcome (attempts i) = .error () := by
  intro n
  induction n with
  | zero =>
    intro attempt hsub hle herr i h1 h2
    have hi : i = attempt := by omega
    rw [requestLoop] at herr
    cases hout : attemptOutcome (attempts attempt) with
    | ok s => rw [hout] at herr; simp at herr
    | error e => cases e; rw [hi]; exact hout
  | succ n ih =>
    intro attempt hsub hle herr i h1 h2
    have hlt : attempt < maxRetries := by omega
    rw [requestLoop] at herr
    cases hout : attemptOutcome (attempts attempt) with
    | ok s => rw [hout] at herr; simp at herr
    | error e =>
      cases e
      rcases Nat.eq_or_lt_of_le h1 with heq | hgt
      · subst heq; exact hout
      · rw [hout] at herr
        simp only [dif_neg (by omega : ¬ maxRetries ≤ attempt)] at herr
        exact ih (attempt + 1) (by omega) (by omega) herr i (by omega) h2

/-- Claim C1: for every pricing input where `unit_price` is absent,
`package_price` is present and numeric, and `package_quantity` is a number
greater than zero, the derivation step of `ProductPricing` construction sets
`unit_price = package_price / package_quantity` rounded (half-even) to 4
decimal places; and when `unit_price_inc_tax` is absent and `unit_price` is
present after that step, it sets `unit_price_inc_tax = unit_price * 1.1`
rounded to 2 decimal places. -/
theorem claim_C1_unit_price_derivation (inp : PricingInput) (price : ℚ) (q : ℤ)
    (hup : inp.unit_price = none)
    (hpp : inp.package_price = some (.num price))
    (hpq : inp.package_quantity = some (some q))
    (hq : 0 < q) :
    ∃ v, calculate_derived_fields inp = .ok v ∧
      v.unit_price = some (.num (quantize 4 (price / (q : ℚ)))) ∧
      (inp.unit_price_inc_tax = none →
        v.unit_price_inc_tax =
          some (.num (quantize 2 (quantize 4 (price / (q : ℚ)) * (11 / 10 : ℚ))))) := by
  have h1 : derive_unit_price inp =
      .ok { inp with unit_price := some (.num (quantize 4 (price / (q : ℚ)))) } := by
    unfold derive_unit_price
    rw [hup, hpp, hpq]
    simp [parseDecimal, hq]
  unfold calculate_derived_fields
  rw [h1]
  cases ht : inp.unit_price_inc_tax with
  | none =>
    refine ⟨{ inp with
              unit_price := some (.num (quantize 4 (price / (q : ℚ))))
              unit_price_inc_tax :=
                some (.num (quantize 2 (quantize 4 (price / (q : ℚ)) * (11 / 10 : ℚ)))) },
            ?_, rfl, fun _ => rfl⟩
    unfold derive_unit_price_inc_tax
    simp [parseDecimal, ht]
  | some t =>
    refine ⟨{ inp with unit_price := some (.num (quantize 4 (price / (q : ℚ)))) }, ?_, rfl, ?_⟩
    · unfold derive_unit_price_inc_tax
      simp [ht]
    · intro h
      exact Option.noConfusion h

/-- Witness for claim C1 at `package_price = 10`, `package_quantity = 4`. -/
theorem claim_C1_unit_price_derivation_witness :
    ∃ v, calculate_derived_fields c1_witness_input = .ok v ∧
      v.unit_price = some (.num (quantize 4 ((10 : ℚ) / ((4 : ℤ) : ℚ)))) ∧
      (c1_witness_input.unit_price_inc_tax = none →
        v.unit_price_inc_tax =
          some (.num (quantize 2 (quantize 4 ((10 : ℚ) / ((4 : ℤ) : ℚ)) * (11 / 10 : ℚ))))) :=
  claim_C1_unit_price_derivation c1_witness_input 10 4 rfl rfl rfl (by decide)

/-- Claim C2 (refuting evaluation): constructing
`ProductPricing(currency="USD", unit_price="abc")` raises `NameError`, not the
`ValidationError` the claim requires — `decimal.InvalidOperation` is evaluated
in the `except` clause but never imported, so the unparseable-monetary-value
case escapes as a `NameError`. -/
theorem claim_C2_unparseable_price_raises_nameError :
    ProductPricing.construct c2_input = .error .nameError ∧
    PyError.nameError ≠ PyError.validationError :=
  ⟨rfl, by decide⟩

/-- Claim C3 (refuting evaluation): `to_inventree_format` never returns a
dictionary — it raises `AttributeError` on every record, because it reads
`self.pricing.packaging` and `ProductPricing` defines no `packaging` field. -/
theorem claim_C3_to_inventree_format_always_raises (p : ProductInfo) :
    p.to_inventree_format = .error .attributeError :=
  rfl

/-- Claim C4 (refuting evaluation): validating the `quantity_breaks` input
`{"10": "1.50", "abc": "2.00", "-5": "3.00"}` does not drop the malformed
entry and produce `{10: 1.50}`; the whole construction aborts with `NameError`
(the `except` clause evaluates the never-imported `InvalidOperation`). -/
theorem claim_C4_quantity_breaks_not_lenient :
    validate_quantity_breaks (some c4_breaks) = .error .nameError ∧
    ProductPricing.construct c4_input = .error .nameError ∧
    validate_quantity_breaks (some c4_breaks) ≠ .ok [(10, mkRat 3 2)] :=
  ⟨rfl, rfl, fun h => Except.noConfusion h⟩

/-- Claim C5: the request loop of `_make_request` returns a 2xx response
immediately, sleeps `2 ^ attempt * delay` between consecutive attempts,
raises the transport error only when all `maxRetries + 1` attempts failed, and
on exhaustion has accumulated the full exponential back-off sleep. -/
theorem claim_C5_retry_loop (maxRetries k : ℕ) (delay : ℚ) (attempts : ℕ → Attempt) (s : ℕ)
    (hk : k ≤ maxRetries)
    (hfail : ∀ i, i < k → attemptOutcome (attempts i) = .error ()) :
    (attempts k = .response s → 200 ≤ s → s < 300 →
      make_request maxRetries delay attempts =
        (.ok s, (Finset.range k).sum fun i => (2 : ℚ) ^ i * delay)) ∧
    ((∀ i, i ≤ maxRetries → attemptOutcome (attempts i) = .error ()) →
      make_request maxRetries delay attempts =
        (.error (), (Finset.range maxRetries).sum fun i => (2 : ℚ) ^ i * delay)) ∧
    ((make_request maxRetries delay attempts).1 = .error () →
      ∀ i, i ≤ maxRetries → attemptOutcome (attempts i) = .error ()) := by
  refine ⟨?_, ?_, ?_⟩
  · intro hresp h2 h3
    have hok : attemptOutcome (attempts k) = .ok s := by
      rw [hresp]
      show (if 400 ≤ s ∧ s < 600 then (Except.error () : Except Unit ℕ) else .ok s) = .ok s
      rw [if_neg (by omega)]
    unfold make_request
    rw [requestLoop_success maxRetries delay attempts s k 0 k rfl (by omega) hk
        (fun i _ h2 => hfail i h2) hok]
    rw [Finset.range_eq_Ico]
  · intro hall
    unfold make_request
    rw [requestLoop_all_fail maxRetries delay attempts maxRetries 0 (by omega) (by omega)
        (fun i _ h2 => hall i h2)]
    rw [Finset.range_eq_Ico]
  · intro herr i hi
    exact requestLoop_error_all_fail maxRetries delay attempts maxRetries 0 (by omega)
      (by omega) herr i (by omega) hi

/-- Witness for claim C5: with `maxRetries = 3`, `delay = 1` and four
consecutive transport failures, the error propagates with total back-off sleep
7 = 1 + 2 + 4 seconds. -/
theorem claim_C5_retry_loop_witness :
    make_request 3 1 (fun _ => Attempt.exception) = (.error (), 7) ∧ (1 + 2 + 4 : ℚ) ≤ 7 := by
  have h := (claim_C5_retry_loop 3 0 1 (fun _ => Attempt.exception) 0 (by omega)
      (fun i h => absurd h (Nat.not_lt_zero i))).2.1 (fun i _ => rfl)
  constructor
  · rw [h]
    norm_num [Finset.sum_range_succ]
  · norm_num

/-- Claim C6: `get_scraper_by_url` returns `None` (and raises nothing — the
embedding is total) both when the normalized domain matches no registered
domain exactly or by the two-way suffix rule, and when the matched vendor's
constructor raises. -/
theorem claim_C6_unmatched_url_returns_none (f : ScraperFactory) (url : String) :
    ((∀ p ∈ f.domain_mapping, p.1 ≠ normalizedDomain url ∧
        pyEndsWith (normalizedDomain url) p.1 = false ∧
        pyEndsWith p.1 (normalizedDomain url) = false) →
      f.get_scraper_by_url url = none) ∧
    (∀ vendor, findVendorForDomain f.domain_mapping (normalizedDomain url) = some vendor →
      List.lookup (strLower vendor) f.scrapers = some (.error ()) →
      f.get_scraper_by_url url = none) := by
  constructor
  · intro h
    have h1 : List.lookup (normalizedDomain url) f.domain_mapping = none :=
      lookup_eq_none_of_all_ne _ _ fun p hp => (h p hp).1
    have h2 : f.domain_mapping.find?
        (fun p => pyEndsWith (normalizedDomain url) p.1 || pyEndsWith p.1 (normalizedDomain url))
        = none := by
      rw [List.find?_eq_none]
      intro p hp
      simp [(h p hp).2.1, (h p hp).2.2]
    unfold ScraperFactory.get_scraper_by_url findVendorForDomain
    rw [h1, h2]
  · intro vendor hfind hctor
    unfold ScraperFactory.get_scraper_by_url
    rw [hfind]
    dsimp only
    unfold ScraperFactory.get_scraper_by_vendor
    rw [hctor]

/-- Witness for claim C6: an unregistered domain and a registered domain whose
constructor raises both resolve to `None`. -/
theorem claim_C6_unmatched_url_returns_none_witness :
    c6_factory.get_scraper_by_url "https://example.org/x" = none ∧
    c6_factory.get_scraper_by_url "https://acme.com/x" = none := by
  constructor
  · exact (claim_C6_unmatched_url_returns_none c6_factory "https://example.org/x").1 (by decide)
  · exact (claim_C6_unmatched_url_returns_none c6_factory "https://acme.com/x").2 "acme" rfl rfl

/-- Claim C7: with vendor "acme" registered for domain "acme.com", the
two-way-suffix partial-match rule resolves both the subdomain URL
"https://shop.acme.com/x" and the unrelated trailing-substring URL
"https://notacme.com/x" to the acme scraper. -/
theorem claim_C7_partial_domain_match :
    c7_factory.get_scraper_by_url "https://shop.acme.com/x" = some "AcmeScraper" ∧
    c7_factory.get_scraper_by_url "https://notacme.com/x" = some "AcmeScraper" :=
  ⟨by decide, by decide⟩

/-- Claim C8: `get_valid_cookies` with an expired (or absent/corrupt) cookie
file and harvesting disabled or unavailable returns exactly the supplied
`fallback_cookies`, and the empty dict when no fallback is supplied. -/
theorem claim_C8_cookie_fallback_chain (env : CookieEnv) (auto_refresh : Bool)
    (fallback : Option (List (String × String)))
    (hfile : ∀ e cs, env.fileState = .stored e cs → e < env.now)
    (hharv : auto_refresh = false ∨ env.selenium_available = false) :
    (∀ cs, fallback = some cs → get_valid_cookies env auto_refresh fallback = cs) ∧
    (fallback = none → get_valid_cookies env auto_refresh fallback = []) := by
  have hload : load_cookies_from_file env = none := by
    unfold load_cookies_from_file
    cases hfs : env.fileState with
    | absent => rfl
    | corrupt => rfl
    | stored e cs => simp [hfile e cs hfs]
  have hav : (auto_refresh && env.selenium_available) = false := by
    rcases hharv with h | h <;> simp [h]
  constructor
  · intro cs hcs
    unfold get_valid_cookies
    rw [hload, hcs]
    simp only [hav, if_false]
    by_cases hne : cs = []
    · simp [hne]
    · simp [hne]
  · intro hnone
    unfold get_valid_cookies
    rw [hload, hnone]
    simp [hav]

/-- Witness for claim C8: expired file (`expires_at = 5 < now = 10`),
`auto_refresh = False`, with and without a fallback. -/
theorem claim_C8_cookie_fallback_chain_witness :
    get_valid_cookies c8_env false (some [("sess", "fallback")]) = [("sess", "fallback")] ∧
    get_valid_cookies c8_env false none = [] := by
  have hfile : ∀ e cs, c8_env.fileState = .stored e cs → e < c8_env.now := by
    intro e cs h
    injection h with h1 h2
    rw [← h1]
    decide
  constructor
  · exact (claim_C8_cookie_fallback_chain c8_env false (some [("sess", "fallback")]) hfile
      (Or.inl rfl)).1 _ rfl
  · exact (claim_C8_cookie_fallback_chain c8_env false none hfile (Or.inl rfl)).2 rfl

/-- Claim C9: every constructed `ScrapingResult` satisfies success ⇒
`product_info` present and failure ⇒ `error_message` present; constructing
with `success=True` and no `product_info` raises, and `success=False` with no
message auto-populates the non-empty default message. -/
theorem claim_C9_scraping_result_invariant (s : Bool) (pi : Option ProductInfo)
    (em : Option String) (rt : Option ℚ) (hs : Option ℤ) :
    (s = true → pi = none →
      mkScrapingResult s pi em rt hs =
        .error "Successful scraping result must include product_info") ∧
    (∀ r, mkScrapingResult s pi em rt hs = .ok r →
      (r.success = true → r.product_info ≠ none) ∧
      (r.success = false → r.error_message ≠ none)) ∧
    (s = false → em = none → ∀ r, mkScrapingResult s pi em rt hs = .ok r →
      r.error_message = some "Unknown error occurred" ∧ "Unknown error occurred" ≠ "") := by
  refine ⟨?_, ?_, ?_⟩
  · intro hs1 hpi
    simp [mkScrapingResult, hs1, hpi]
  · intro r hr
    unfold mkScrapingResult at hr
    split at hr
    · cases hr
    · rename_i hcond
      cases hr
      constructor
      · intro hsucc hnone
        exact hcond ⟨hsucc, hnone⟩
      · intro hfalse
        simp [hfalse]
        split
        · simp
        · rename_i hcond2
          intro habs
          exact hcond2 ⟨by simpa using hfalse, habs⟩
  · intro hs1 hem r hr
    unfold mkScrapingResult at hr
    split at hr
    · cases hr
    · cases hr
      simp [hs1, hem]

/-- Witness for claim C9: both halves at concrete inputs. -/
theorem claim_C9_scraping_result_invariant_witness :
    mkScrapingResult true none none none none =
      .error "Successful scraping result must include product_info" ∧
    (∀ r, mkScrapingResult false none none none none = .ok r →
      r.error_message = some "Unknown error occurred") := by
  constructor
  · exact (claim_C9_scraping_result_invariant true none none none none).1 rfl rfl
  · intro r hr
    exact ((claim_C9_scraping_result_invariant false none none none none).2.2 rfl rfl r hr).1

/-- Claim C10: `to_excel_row` guards the unit-price conversion by truthiness,
so a record with `unit_price = 0` projects the "Unit Price" cell to `None`,
identically to a record with the price absent. -/
theorem claim_C10_zero_unit_price_projects_none (p : ProductInfo)
    (h : p.pricing.unit_price = some 0) :
    List.lookup "Unit Price" p.to_excel_row = some PyValue.none ∧
    List.lookup "Unit Price"
        (ProductInfo.to_excel_row { p with pricing := { p.pricing with unit_price := none } })
      = some PyValue.none := by
  constructor
  · simp [ProductInfo.to_excel_row, List.lookup, h]
  · simp [ProductInfo.to_excel_row, List.lookup]

/-- Witness for claim C10 at a concrete record with a zero unit price. -/
theorem claim_C10_zero_unit_price_projects_none_witness :
    List.lookup "Unit Price" c10_product.to_excel_row = some PyValue.none ∧
    List.lookup "Unit Price"
        (ProductInfo.to_excel_row
          { c10_product with pricing := { c10_product.pricing with unit_price := none } })
      = some PyValue.none :=
  claim_C10_zero_unit_price_projects_none c10_product rfl
